import Mathlib

/-!
Shallow embedding of `modin/experimental/cloud` (files `rayscale.py` and
`__init__.py`): the `RayCluster` lifecycle controller, its config builder
and its content-addressed config persistence, together with theorems about
the claims of the specification.

Modelling conventions:
* Python exceptions become the inductive `Exc`; a call that can raise
  returns an `Option Exc` (the raised exception) or an `Except Exc α`.
* `threading.Thread` objects are modelled by `ThreadObj`, recording whether
  the thread has been started.  `rayscale.py` constructs threads with
  `threading.Thread(target=...)` and never calls `.start()` anywhere, so in
  every reachable state `started = false`.  Per the documented semantics of
  `threading.Thread.join`, joining a thread that has not been started raises
  `RuntimeError`; this is modelled by `Exc.runtimeError`.
* External collaborators (the ray autoscaler commands, `sha1`, the base
  template YAML file, environment variables, the filesystem) are parameters:
  the outcome of `create_or_update_cluster` / `teardown_cluster` is an
  `Except` argument, the filesystem is a list of existing paths, the hash is
  a function argument.
* The base class `Cluster` (module `cluster.py`) is not part of the sources;
  its constructor is modelled from the spec (see `ProviderInfo`).
-/

namespace ModinCloud

/-- Python exceptions that the modelled code can raise or store. -/
inductive Exc where
  /-- `RuntimeError`, raised by `Thread.join()` on a never-started thread. -/
  | runtimeError : Exc
  /-- `ValueError(msg)`. -/
  | valueError (msg : String) : Exc
  /-- `AssertionError(msg)`, from a failed `assert`. -/
  | assertionError (msg : String) : Exc
  /-- `CannotSpawnCluster("Cannot spawn cluster", cause=ex)`. -/
  | cannotSpawnCluster (cause : Exc) : Exc
  /-- `CannotDestroyCluster("Cannot destroy cluster", cause=ex)`. -/
  | cannotDestroyCluster (cause : Exc) : Exc
  /-- An opaque failure coming out of the external provisioning tool. -/
  | externalError (msg : String) : Exc
deriving DecidableEq, Repr

/-- `ConnectionDetails` from `__init__.py`: a named tuple with defaults
`user_name="modin"`, `key_file=None`, `address=None`, `port=22`. -/
structure ConnectionDetails where
  user_name : String := "modin"
  key_file : Option String := none
  address : Option String := none
  port : Nat := 22
deriving DecidableEq, Repr

/-- Provider identifiers.  `cluster.py` is not among the sources; per the
spec, a provider identifier is a value that the static per-provider lookup
tables are keyed by, `AWS` being the one with entries.  `otherProvider s`
stands for any identifier that is not `AWS`. -/
inductive ProviderName where
  | AWS : ProviderName
  | otherProvider (s : String) : ProviderName
deriving DecidableEq, Repr

/-- The display string of a provider identifier (`self.provider.name`). -/
def ProviderName.str : ProviderName → String
  | .AWS => "aws"
  | .otherProvider s => s

/-- `RayCluster.__instance_key = {Provider.AWS: "InstanceType"}` as a
lookup returning `none` where Python raises `KeyError`. -/
def instanceKeyTable : ProviderName → Option String
  | .AWS => some "InstanceType"
  | .otherProvider _ => none

/-- `RayCluster.__credentials_env = {Provider.AWS: "AWS_CONFIG_FILE"}`. -/
def credentialsEnvTable : ProviderName → Option String
  | .AWS => some "AWS_CONFIG_FILE"
  | .otherProvider _ => none

/-- The `ValueError(f"Unsupported provider: {self.provider.name}")` raised
at both lookup sites (the spec calls it `UnsupportedProviderError`). -/
def unsupportedProviderExc (p : ProviderName) : Exc :=
  .valueError ("Unsupported provider: " ++ p.str)

/-- Modelled from the spec: the immutable cluster-spec data stored on the
object by the base `Cluster` constructor (module `cluster.py` is not among
the sources).  Per spec §3 this is the provider object (identifier,
credentials file, region, zone). -/
structure ProviderInfo where
  name : ProviderName
  credentials_file : Option String := none
  region : Option String := none
  zone : Option String := none
deriving DecidableEq, Repr

/-- Modelled from the spec: the remaining ClusterSpec fields stored by the
base `Cluster` constructor (project/cluster name, worker count, node
types). -/
structure ClusterSpec where
  provider : ProviderInfo
  project_name : Option String := none
  cluster_name : String := "modin-cluster"
  worker_count : Nat := 4
  head_node_type : Option String := none
  worker_node_type : Option String := none
deriving DecidableEq, Repr

/-- The `provider` mapping of the config document. -/
structure ProviderSection where
  type : String
  region : Option String := none
  zone : Option String := none
deriving DecidableEq, Repr

/-- The `auth` mapping of the config document. -/
structure AuthSection where
  ssh_user : String := ""
  ssh_proxy_command : Option String := none
  ssh_private_key : Option String := none
deriving DecidableEq, Repr

/-- The config document (the YAML dict built by `__make_config` and
persisted by `__save_config`), restricted to the fields the code touches;
`head_node` and `worker_nodes` are association lists because the
instance-type key is computed. -/
structure Config where
  cluster_name : String
  min_workers : Nat
  max_workers : Nat
  initial_workers : Nat
  provider : ProviderSection
  auth : AuthSection
  head_node : List (String × Option String) := []
  worker_nodes : List (String × Option String) := []
deriving DecidableEq, Repr

/-- Python dict assignment `d[k] = v` on an association list: replace the
value at `k` if present, append otherwise. -/
def setAssoc (l : List (String × Option String)) (k : String) (v : Option String) :
    List (String × Option String) :=
  if l.any (fun p => p.1 = k) then
    l.map (fun p => if p.1 = k then (k, v) else p)
  else
    l ++ [(k, v)]

/-- Python truthiness of an optional string (`if self.provider.region:`):
`None` and the empty string are falsy. -/
def truthy : Option String → Bool
  | none => false
  | some s => !s.isEmpty

/-- Characters `shlex.quote` considers safe: ASCII `\w` plus the
punctuation at-sign, percent, plus, equals, colon, comma, dot, slash,
hyphen. -/
def shSafeChar (c : Char) : Bool :=
  (c.isAlpha && c.toNat < 128) || c.isDigit || c = '_' || c = '@' || c = '%' ||
    c = '+' || c = '=' || c = ':' || c = ',' || c = '.' || c = '/' || c = '-'

/-- `shlex.quote`: return the string unchanged when it is non-empty and all
safe, otherwise wrap it in single quotes, escaping embedded single quotes. -/
def shQuote (s : String) : String :=
  if s.isEmpty then "''"
  else if s.data.all shSafeChar then s
  else "'" ++ s.replace "'" "'\"'\"'" ++ "'"

/-- `RayCluster.__make_config` (rayscale.py lines 90-119).  The base
template (the parsed `ray-autoscaler.yml`, external to the core) and the
`MODIN_SOCKS_PROXY` environment value are parameters.  Returns the built
config, or the `ValueError` raised when the instance-type lookup fails. -/
def makeConfig (template : Config) (sp : ClusterSpec) (socks_proxy : Option String) :
    Except Exc Config :=
  -- cluster and provider details
  let config := { template with
    cluster_name := sp.cluster_name
    min_workers := sp.worker_count
    max_workers := sp.worker_count
    initial_workers := sp.worker_count
    provider := { template.provider with type := sp.provider.name.str } }
  let config := if truthy sp.provider.region then
      { config with provider := { config.provider with region := sp.provider.region } }
    else config
  let config := if truthy sp.provider.zone then
      { config with provider := { config.provider with zone := sp.provider.zone } }
    else config
  -- connection details
  let config := { config with auth := { config.auth with ssh_user := "modin" } }
  let config := match socks_proxy with
    | some sp' =>
      if sp'.isEmpty then config
      else { config with auth := { config.auth with
        ssh_proxy_command := some ("nc -x " ++ shQuote sp' ++ " %h %p") } }
    | none => config
  -- instance types
  match instanceKeyTable sp.provider.name with
  | none => .error (unsupportedProviderExc sp.provider.name)
  | some instance_key =>
    let config := { config with head_node := setAssoc config.head_node instance_key sp.head_node_type }
    let config := { config with worker_nodes := setAssoc config.worker_nodes instance_key sp.worker_node_type }
    .ok config

/-- The path `os.path.join(cfgdir, f"config-{h}.yml")` for a hash prefix
`h`, with `cfgdir` the fixed per-user directory `~/.modin/cloud`. -/
def entryPath (h : List Char) : String :=
  String.mk ("~/.modin/cloud/config-".data ++ h ++ ".yml".data)

/-- The probing loop of `__save_config`: `for stop in range(4, len(namehash))`
try `config-{namehash[:stop]}.yml`, stopping at the first path that does not
exist; the `for`-`else` falls back to the full hash.  `fs` is the set of
existing paths; `rem` is the number of loop iterations left
(`len(namehash) - stop`), making the recursion structural. -/
def saveConfigLoop (namehash : List Char) (fs : List String) (stop : Nat) : Nat → String
  | 0 => entryPath namehash
  | rem + 1 =>
    let entry := entryPath (namehash.take stop)
    if fs.contains entry then saveConfigLoop namehash fs (stop + 1) rem else entry

/-- The path `__save_config` chooses for a config whose
`sha1(repr(config)).hexdigest()` is `namehash`, given the existing files. -/
def saveConfigPath (namehash : List Char) (fs : List String) : String :=
  saveConfigLoop namehash fs 4 (namehash.length - 4)

/-- `RayCluster.__save_config` (rayscale.py lines 121-135): pick the path
and write the file there; returns the chosen path and the filesystem with
the written file added. -/
def saveConfig (namehash : List Char) (fs : List String) : String × List String :=
  let entry := saveConfigPath namehash fs
  (entry, entry :: fs)

/-- A `threading.Thread` object.  The only attribute the modelled code can
observe is whether `.start()` has been called; `rayscale.py` never calls
it, so reachable thread objects always have `started = false`. -/
structure ThreadObj where
  started : Bool
deriving DecidableEq, Repr

/-- `_ThreadTask` (rayscale.py lines 33-38): thread handle, captured
exception and silent flag.  The `target` callable is determined by which
task object this is (`spawner` runs `__spawn`, `destroyer` runs
`__destroy`) and is not stored. -/
structure ThreadTask where
  thread : Option ThreadObj := none
  exc : Option Exc := none
  silent : Bool := false
deriving DecidableEq, Repr

/-- The mutable state of a `RayCluster` object.  The fields up to
`destroy_exc` are the Python attributes (`spawn_exc` and `destroy_exc` are
set by `__spawn` / `__destroy` on failure and are otherwise absent, hence
`Option`).  `stderr` models the diagnostic stream `sys.stderr`, and
`gatewayCalls` / `provisionOk` are history instrumentation counting calls
into the external provisioning tool and recording whether a
`create_or_update_cluster` call has succeeded. -/
structure RayState where
  spawner : ThreadTask := {}
  destroyer : ThreadTask := {}
  ready : Bool := false
  config : Option Config := none
  config_file : String := ""
  spawn_exc : Option Exc := none
  destroy_exc : Option Exc := none
  stderr : List String := []
  gatewayCalls : Nat := 0
  provisionOk : Bool := false
deriving DecidableEq, Repr

/-- `RayCluster.__run_thread` (rayscale.py lines 79-88) acting on one task:
if no thread exists, construct one (note: the source never calls
`.start()`); if `wait`, set `silent`, join the thread — which raises
`RuntimeError` when the thread was never started — and otherwise swap out
and re-raise any captured `task.exc`.  Returns the updated task and the
exception raised to the caller, if any. -/
def runThread (wait : Bool) (task : ThreadTask) : ThreadTask × Option Exc :=
  let task := match task.thread with
    | none => { task with thread := some { started := false } }
    | some _ => task
  if wait then
    let task := { task with silent := true }
    match task.thread with
    | some t =>
      if t.started then
        -- join() returns; `exc, task.exc = task.exc, None; if exc: raise exc`
        ({ task with exc := none }, task.exc)
      else
        -- join() of a never-started thread raises RuntimeError
        (task, some .runtimeError)
    | none => (task, some .runtimeError)
  else
    (task, none)

/-- `RayCluster.spawn` (rayscale.py lines 65-71): `__run_thread` on the
spawner task.  Returns the new object state and any raised exception. -/
def spawnCall (wait : Bool) (s : RayState) : RayState × Option Exc :=
  let r := runThread wait s.spawner
  ({ s with spawner := r.1 }, r.2)

/-- `RayCluster.destroy` (rayscale.py lines 73-77): `__run_thread` on the
destroyer task. -/
def destroyCall (wait : Bool) (s : RayState) : RayState × Option Exc :=
  let r := runThread wait s.destroyer
  ({ s with destroyer := r.1 }, r.2)

/-- `RayCluster.__spawn` (rayscale.py lines 137-155), the spawner thread's
target.  `res` is the combined outcome of the external
`create_or_update_cluster` call plus the reload of the (possibly
tool-rewritten) config file: on success it carries the reloaded config.  On
success the state becomes ready; on failure a `CannotSpawnCluster` wrapping
the cause is stored in the `spawn_exc` attribute (note: not in
`self.spawner.exc`), and a traceback is written to stderr unless the
spawner task is silent.  The body never lets the exception escape. -/
def spawnBody (res : Except Exc Config) (s : RayState) : RayState :=
  let s := { s with gatewayCalls := s.gatewayCalls + 1 }
  match res with
  | .ok newConfig =>
    { s with config := some newConfig, ready := true, provisionOk := true }
  | .error ex =>
    let s := { s with spawn_exc := some (.cannotSpawnCluster ex) }
    if s.spawner.silent then s
    else { s with stderr := s.stderr ++ ["Cannot spawn cluster"] }

/-- `RayCluster.__destroy` (rayscale.py lines 157-171), the destroyer
thread's target.  `res` is the outcome of the external `teardown_cluster`
call.  On success `ready` is cleared and the config dropped; on failure a
`CannotDestroyCluster` is stored in the `destroy_exc` attribute (not in
`self.destroyer.exc`) and `ready` is left untouched. -/
def destroyBody (res : Except Exc Unit) (s : RayState) : RayState :=
  let s := { s with gatewayCalls := s.gatewayCalls + 1 }
  match res with
  | .ok _ =>
    { s with ready := false, config := none }
  | .error ex =>
    let s := { s with destroy_exc := some (.cannotDestroyCluster ex) }
    if s.destroyer.silent then s
    else { s with stderr := s.stderr ++ ["Cannot destroy cluster"] }

/-- `RayCluster._get_connection_details` (rayscale.py lines 173-182).
`head_ip` is the value the external `get_head_node_ip` query would return.
The `assert self.ready` is modelled as a raised `AssertionError`; reading
`self.config["auth"]["ssh_private_key"]` when the reloaded document lacks
the key would raise a `KeyError` (and subscripting a `None` config a
`TypeError`); both are modelled as `valueError`s distinct from the
assertion, since only the assertion branch matters to the claims. -/
def getConnectionDetails (head_ip : String) (s : RayState) : Except Exc ConnectionDetails :=
  if s.ready then
    match s.config with
    | none => .error (.valueError "config is None")
    | some cfg =>
      match cfg.auth.ssh_private_key with
      | none => .error (.valueError "KeyError: ssh_private_key")
      | some kf =>
        .ok { user_name := cfg.auth.ssh_user, key_file := some kf
              address := some head_ip, port := 22 }
  else
    .error (.assertionError "Cluster is not ready, cannot get connection details")

/-- The state of a freshly constructed `RayCluster` whose `__init__`
completed: fresh tasks, `ready = False`, the built config and its saved
path. -/
def freshState (cfg : Config) (cfgFile : String) : RayState :=
  { spawner := {}, destroyer := {}, ready := false
    config := some cfg, config_file := cfgFile
    spawn_exc := none, destroy_exc := none
    stderr := [], gatewayCalls := 0, provisionOk := false }

/-- The tail of `RayCluster.__init__` after the credentials step: build the
config (`__make_config`) and persist it (`__save_config`).  `hashOf` stands
for `sha1(repr(config)).hexdigest()`.  Returns the constructed object state
(or the raised exception) together with the resulting filesystem. -/
def clusterInitTail (template : Config) (sp : ClusterSpec) (socks_proxy : Option String)
    (hashOf : Config → List Char) (fs : List String) :
    Except Exc RayState × List String :=
  match makeConfig template sp socks_proxy with
  | .error e => (.error e, fs)
  | .ok cfg =>
    let r := saveConfig (hashOf cfg) fs
    (.ok (freshState cfg r.1), r.2)

/-- `RayCluster.__init__` (rayscale.py lines 48-63) after the base-class
constructor stored the spec: when a credentials file is given, look up the
provider's credentials environment variable (raising the unsupported
provider `ValueError` on a missing entry) and set it in the process
environment (an environment write, not a filesystem write — not tracked);
then build and persist the config. -/
def clusterInit (template : Config) (sp : ClusterSpec) (socks_proxy : Option String)
    (hashOf : Config → List Char) (fs : List String) :
    Except Exc RayState × List String :=
  match sp.provider.credentials_file with
  | some _ =>
    match credentialsEnvTable sp.provider.name with
    | none => (.error (unsupportedProviderExc sp.provider.name), fs)
    | some _configKey => clusterInitTail template sp socks_proxy hashOf fs
  | none => clusterInitTail template sp socks_proxy hashOf fs

/-- One step of a `RayCluster` object's lifecycle: a caller invokes `spawn`
or `destroy`, or one of the two background thread bodies runs with some
outcome of the external tool.  (Body steps are included unconditionally —
generously, since the source never starts the threads, the bodies could
only ever run if they were started.) -/
inductive Step : RayState → RayState → Prop where
  | spawnCalled (w : Bool) (s : RayState) : Step s (spawnCall w s).1
  | destroyCalled (w : Bool) (s : RayState) : Step s (destroyCall w s).1
  | spawnRan (res : Except Exc Config) (s : RayState) : Step s (spawnBody res s)
  | destroyRan (res : Except Exc Unit) (s : RayState) : Step s (destroyBody res s)

/-- States reachable from a given initial state by lifecycle steps. -/
inductive Reachable (s0 : RayState) : RayState → Prop where
  | init : Reachable s0 s0
  | step {s s' : RayState} : Reachable s0 s → Step s s' → Reachable s0 s'

/-- `true` when an `Except`-returning call succeeded. -/
def excOk {α : Type} : Except Exc α → Bool
  | .ok _ => true
  | .error _ => false

/-- A concrete base-template document, for evaluating the model. -/
def sampleTemplate : Config :=
  { cluster_name := "default"
    min_workers := 1, max_workers := 1, initial_workers := 1
    provider := { type := "aws", region := some "us-west-2" }
    auth := { ssh_user := "ubuntu", ssh_private_key := some "~/.ssh/modin.pem" }
    head_node := [], worker_nodes := [] }

/-- A concrete freshly-constructed cluster state, for evaluating the model. -/
def sampleState : RayState := freshState sampleTemplate "~/.modin/cloud/config-abcd.yml"

/-- A concrete 40-hex-character digest, the shape `sha1(...).hexdigest()`
returns. -/
def sampleHash : List Char := "0123456789abcdef0123456789abcdef01234567".data

/-- A concrete cluster state whose spawn has succeeded (`ready = True`),
for evaluating the connection-details path. -/
def readySample : RayState :=
  { freshState sampleTemplate "~/.modin/cloud/config-abcd.yml" with
    ready := true, provisionOk := true }

end ModinCloud

namespace ModinCloud

/-- `__run_thread` never stores into `task.exc`: when the task's captured
exception is `None` it stays `None`. -/
theorem runThread_keeps_exc_none (w : Bool) (t : ThreadTask) (h : t.exc = none) :
    (runThread w t).1.exc = none := by
  unfold runThread
  cases ht : t.thread <;> cases w <;> simp [ht, h]
  split <;> simp

/-- Given `task.exc = None`, the only exception `__run_thread` can raise is
the `RuntimeError` from joining a never-started thread. -/
theorem runThread_raise_of_exc_none (w : Bool) (t : ThreadTask) (h : t.exc = none) :
    (runThread w t).2 = none ∨ (runThread w t).2 = some Exc.runtimeError := by
  unfold runThread
  cases ht : t.thread <;> cases w <;> simp [ht, h]
  split <;> simp

/-- C1: evaluation of the code at the failing input.  On a fresh cluster,
`spawn(wait=True)` does not block until a spawn attempt completes and
re-raise its captured error: `__run_thread` constructs the spawner thread
but never starts it, so `join()` raises `RuntimeError`; no provisioning
call is made, no error is captured, and the state is left not ready. -/
theorem spawn_wait_raises_runtime_error :
    (spawnCall true sampleState).2 = some Exc.runtimeError ∧
    (spawnCall true sampleState).1.gatewayCalls = 0 ∧
    (spawnCall true sampleState).1.ready = false ∧
    (spawnCall true sampleState).1.spawn_exc = none ∧
    (spawnCall true sampleState).1.spawner.thread = some { started := false } := by
  decide

/-- C2: evaluation of the code at the failing input.  `spawn(wait=False)`
and `destroy(wait=False)` do return to the caller without raising, but the
corresponding background task is never started: the constructed `Thread`
is left with `started = false` and no provisioning call ever happens. -/
theorem spawn_nowait_never_starts_thread :
    (spawnCall false sampleState).2 = none ∧
    (spawnCall false sampleState).1.spawner.thread = some { started := false } ∧
    (spawnCall false sampleState).1.gatewayCalls = 0 ∧
    (destroyCall false sampleState).2 = none ∧
    (destroyCall false sampleState).1.destroyer.thread = some { started := false } ∧
    (destroyCall false sampleState).1.gatewayCalls = 0 := by
  decide

/-- C7: evaluation of the code at the failing input.  A second
`spawn(wait=True)` after the first call indeed starts no second
provisioning call (none is ever started), but it does not return without
error: like the first call, it raises `RuntimeError` from joining the
never-started spawner thread. -/
theorem spawn_wait_twice_raises_again :
    (spawnCall true sampleState).2 = some Exc.runtimeError ∧
    (spawnCall true (spawnCall true sampleState).1).2 = some Exc.runtimeError ∧
    (spawnCall true (spawnCall true sampleState).1).1.gatewayCalls = 0 := by
  decide

/-- C9: `spawn(wait=False)` and `destroy(wait=False)` are pure frame
no-ops apart from the task's thread field: they raise nothing, leave
`ready`, `config`, `config_file`, the captured-error attributes, the other
task, the diagnostic stream and the provisioning-call count unchanged, and
set the task's thread to a newly constructed never-started `Thread` when
there was none, keeping the existing thread object otherwise. -/
theorem spawn_nowait_frame (s : RayState) :
    (spawnCall false s).2 = none ∧
    (spawnCall false s).1.ready = s.ready ∧
    (spawnCall false s).1.config = s.config ∧
    (spawnCall false s).1.config_file = s.config_file ∧
    (spawnCall false s).1.gatewayCalls = s.gatewayCalls ∧
    (spawnCall false s).1.spawn_exc = s.spawn_exc ∧
    (spawnCall false s).1.destroy_exc = s.destroy_exc ∧
    (spawnCall false s).1.destroyer = s.destroyer ∧
    (spawnCall false s).1.stderr = s.stderr ∧
    (spawnCall false s).1.spawner.exc = s.spawner.exc ∧
    (spawnCall false s).1.spawner.silent = s.spawner.silent ∧
    (spawnCall false s).1.spawner.thread = some (s.spawner.thread.getD { started := false }) ∧
    (destroyCall false s).2 = none ∧
    (destroyCall false s).1.ready = s.ready ∧
    (destroyCall false s).1.config = s.config ∧
    (destroyCall false s).1.config_file = s.config_file ∧
    (destroyCall false s).1.gatewayCalls = s.gatewayCalls ∧
    (destroyCall false s).1.spawn_exc = s.spawn_exc ∧
    (destroyCall false s).1.destroy_exc = s.destroy_exc ∧
    (destroyCall false s).1.spawner = s.spawner ∧
    (destroyCall false s).1.stderr = s.stderr ∧
    (destroyCall false s).1.destroyer.exc = s.destroyer.exc ∧
    (destroyCall false s).1.destroyer.silent = s.destroyer.silent ∧
    (destroyCall false s).1.destroyer.thread = some (s.destroyer.thread.getD { started := false }) := by
  unfold spawnCall destroyCall runThread
  cases hs : s.spawner.thread <;> cases hd : s.destroyer.thread <;> simp [hs, hd]

/-- C6: when the provisioning call fails, the spawn body leaves `ready`
false (the state stays not-ready) and captures a `CannotSpawnCluster`
wrapping the cause; when teardown fails, the destroy body leaves `ready`
exactly as it was and captures a `CannotDestroyCluster`.  Both bodies are
total functions of the state: the exception never propagates out of the
thread. -/
theorem body_failure_invariants (s s' : RayState) (ex ex' : Exc)
    (h : s.ready = false) :
    (spawnBody (.error ex) s).ready = false ∧
    (spawnBody (.error ex) s).spawn_exc = some (Exc.cannotSpawnCluster ex) ∧
    (destroyBody (.error ex') s').ready = s'.ready ∧
    (destroyBody (.error ex') s').destroy_exc = some (Exc.cannotDestroyCluster ex') := by
  refine ⟨?_, ?_, ?_, ?_⟩ <;> simp only [spawnBody, destroyBody] <;> split <;> simp [h]

/-- C6 witness: the invariants at a concrete failing outcome on the sample
fresh state. -/
theorem body_failure_invariants_witness :
    (spawnBody (.error (Exc.externalError "ssh timeout")) sampleState).ready = false ∧
    (spawnBody (.error (Exc.externalError "ssh timeout")) sampleState).spawn_exc
        = some (Exc.cannotSpawnCluster (Exc.externalError "ssh timeout")) ∧
    (destroyBody (.error (Exc.externalError "quota")) sampleState).ready = sampleState.ready ∧
    (destroyBody (.error (Exc.externalError "quota")) sampleState).destroy_exc
        = some (Exc.cannotDestroyCluster (Exc.externalError "quota")) :=
  body_failure_invariants sampleState sampleState
    (Exc.externalError "ssh timeout") (Exc.externalError "quota") rfl

/-- The spawn body never modifies the two `_ThreadTask` objects: on
failure it writes the `spawn_exc` attribute of the cluster, not
`self.spawner.exc`. -/
theorem spawnBody_keeps_tasks (res : Except Exc Config) (s : RayState) :
    (spawnBody res s).spawner = s.spawner ∧ (spawnBody res s).destroyer = s.destroyer := by
  rcases res with c | e <;> simp only [spawnBody] <;>
    refine ⟨?_, ?_⟩ <;> (try split) <;> trivial

/-- The destroy body never modifies the two `_ThreadTask` objects: on
failure it writes the `destroy_exc` attribute, not `self.destroyer.exc`. -/
theorem destroyBody_keeps_tasks (res : Except Exc Unit) (s : RayState) :
    (destroyBody res s).spawner = s.spawner ∧ (destroyBody res s).destroyer = s.destroyer := by
  rcases res with c | e <;> simp only [destroyBody] <;>
    refine ⟨?_, ?_⟩ <;> (try split) <;> trivial

/-- The lifecycle steps never store into the `exc` field of either task:
the bodies write `self.spawn_exc` / `self.destroy_exc` instead, and
`__run_thread` only ever clears `task.exc`. -/
theorem step_keeps_exc_none {s s' : RayState} (st : Step s s')
    (h1 : s.spawner.exc = none) (h2 : s.destroyer.exc = none) :
    s'.spawner.exc = none ∧ s'.destroyer.exc = none := by
  cases st with
  | spawnCalled w =>
    exact ⟨runThread_keeps_exc_none w s.spawner h1, h2⟩
  | destroyCalled w =>
    exact ⟨h1, runThread_keeps_exc_none w s.destroyer h2⟩
  | spawnRan res =>
    exact ⟨((spawnBody_keeps_tasks res s).1 ▸ h1 : _),
      ((spawnBody_keeps_tasks res s).2 ▸ h2 : _)⟩
  | destroyRan res =>
    exact ⟨((destroyBody_keeps_tasks res s).1 ▸ h1 : _),
      ((destroyBody_keeps_tasks res s).2 ▸ h2 : _)⟩

/-- C10: over every sequence of lifecycle operations from a freshly
constructed cluster, the `exc` fields of both the spawner and the
destroyer task stay `None` — the bodies capture their errors in the
separate `spawn_exc` / `destroy_exc` attributes — so a waiting
`spawn`/`destroy` call can only raise the join `RuntimeError`, never a
background-body failure re-raised from `task.exc`. -/
theorem task_exc_never_set (cfg : Config) (cfgFile : String) (w : Bool) (s : RayState)
    (h : Reachable (freshState cfg cfgFile) s) :
    s.spawner.exc = none ∧ s.destroyer.exc = none ∧
    ((spawnCall w s).2 = none ∨ (spawnCall w s).2 = some Exc.runtimeError) ∧
    ((destroyCall w s).2 = none ∨ (destroyCall w s).2 = some Exc.runtimeError) := by
  have main : s.spawner.exc = none ∧ s.destroyer.exc = none := by
    induction h with
    | init => exact ⟨rfl, rfl⟩
    | step _ st ih => exact step_keeps_exc_none st ih.1 ih.2
  exact ⟨main.1, main.2,
    runThread_raise_of_exc_none w s.spawner main.1,
    runThread_raise_of_exc_none w s.destroyer main.2⟩

/-- C10 witness: the property at the concrete fresh sample state. -/
theorem task_exc_never_set_witness :
    sampleState.spawner.exc = none ∧ sampleState.destroyer.exc = none ∧
    ((spawnCall true sampleState).2 = none ∨
      (spawnCall true sampleState).2 = some Exc.runtimeError) ∧
    ((destroyCall true sampleState).2 = none ∨
      (destroyCall true sampleState).2 = some Exc.runtimeError) :=
  task_exc_never_set sampleTemplate "~/.modin/cloud/config-abcd.yml" true
    sampleState Reachable.init

/-- C3: after `spawn(wait=True)` on a freshly constructed cluster, a
connection-details request succeeds exactly when the provisioning call has
succeeded (in this code, neither ever holds: the spawner thread is never
started, so provisioning never runs, and the request fails the `ready`
precondition with the fatal assertion); and whenever a connection-details
request does succeed it returns the ssh user and private-key file from the
config, the address from the head-node query, and port 22. -/
theorem spawn_wait_then_connection_details (cfg cfg2 : Config)
    (cfgFile ip ip2 kf : String) (s2 : RayState)
    (h1 : s2.ready = true) (h2 : s2.config = some cfg2)
    (h3 : cfg2.auth.ssh_private_key = some kf) :
    excOk (getConnectionDetails ip (spawnCall true (freshState cfg cfgFile)).1)
      = (spawnCall true (freshState cfg cfgFile)).1.provisionOk ∧
    getConnectionDetails ip (spawnCall true (freshState cfg cfgFile)).1
      = .error (.assertionError "Cluster is not ready, cannot get connection details") ∧
    getConnectionDetails ip2 s2
      = .ok { user_name := cfg2.auth.ssh_user, key_file := some kf
              address := some ip2, port := 22 } := by
  refine ⟨rfl, rfl, ?_⟩
  simp [getConnectionDetails, h1, h2, h3]

/-- C3 witness: the property at concrete states — the fresh sample state
after a waited spawn, and a concrete ready state. -/
theorem spawn_wait_then_connection_details_witness :
    excOk (getConnectionDetails "1.2.3.4"
        (spawnCall true (freshState sampleTemplate "cfg.yml")).1)
      = (spawnCall true (freshState sampleTemplate "cfg.yml")).1.provisionOk ∧
    getConnectionDetails "1.2.3.4" (spawnCall true (freshState sampleTemplate "cfg.yml")).1
      = .error (.assertionError "Cluster is not ready, cannot get connection details") ∧
    getConnectionDetails "10.0.0.7" readySample
      = .ok { user_name := sampleTemplate.auth.ssh_user
              key_file := some "~/.ssh/modin.pem"
              address := some "10.0.0.7", port := 22 } :=
  spawn_wait_then_connection_details sampleTemplate sampleTemplate "cfg.yml"
    "1.2.3.4" "10.0.0.7" "~/.ssh/modin.pem" readySample rfl rfl rfl

/-- Entry paths built from hash prefixes of different lengths differ. -/
theorem entryPath_ne_of_length {a b : List Char} (hab : a.length ≠ b.length) :
    entryPath a ≠ entryPath b := by
  intro he
  apply hab
  have hd : "~/.modin/cloud/config-".data ++ a ++ ".yml".data
      = "~/.modin/cloud/config-".data ++ b ++ ".yml".data := congrArg String.data he
  have hlen := congrArg List.length hd
  simp only [List.length_append] at hlen
  omega

/-- C4 counterexample: persisting the same config content twice does not
yield the same target path.  With an initially empty config directory and
a 40-hex-digit content hash, the first persist writes the 4-character
prefix path and the second persist — finding that path on disk — probes on
to the 5-character prefix path. -/
theorem persist_same_config_twice_differs :
    (saveConfig sampleHash []).1 ≠ (saveConfig sampleHash (saveConfig sampleHash []).2).1 := by
  decide

/-- C4 amended: persisting the same config content twice yields distinct
paths: when neither short-prefix path pre-exists, the first persist
chooses the 4-character hash-prefix path, and a second persist of the same
content — its first choice now existing — chooses the 5-character
hash-prefix path.  The chosen path is deterministic in the config content
together with the set of already-existing files. -/
theorem persist_same_config_twice_probes_longer (h : List Char) (fs : List String)
    (hlen : 6 ≤ h.length)
    (h4 : fs.contains (entryPath (h.take 4)) = false)
    (h5 : fs.contains (entryPath (h.take 5)) = false) :
    (saveConfig h fs).1 = entryPath (h.take 4) ∧
    (saveConfig h (saveConfig h fs).2).1 = entryPath (h.take 5) ∧
    (saveConfig h fs).1 ≠ (saveConfig h (saveConfig h fs).2).1 := by
  obtain ⟨n, hn⟩ : ∃ n, h.length - 4 = n + 2 := ⟨h.length - 6, by omega⟩
  have hne45 : entryPath (h.take 5) ≠ entryPath (h.take 4) := by
    apply entryPath_ne_of_length
    simp only [List.length_take]
    omega
  have h4' : entryPath (h.take 4) ∉ fs := by simpa using h4
  have h5' : entryPath (h.take 5) ∉ fs := by simpa using h5
  have e1 : (saveConfig h fs).1 = entryPath (h.take 4) := by
    unfold saveConfig saveConfigPath
    rw [hn]
    simp [saveConfigLoop, h4']
  have efs : (saveConfig h fs).2 = entryPath (h.take 4) :: fs := by
    unfold saveConfig saveConfigPath
    rw [hn]
    simp [saveConfigLoop, h4']
  have e2 : (saveConfig h (saveConfig h fs).2).1 = entryPath (h.take 5) := by
    rw [efs]
    unfold saveConfig saveConfigPath
    rw [hn]
    simp [saveConfigLoop, List.mem_cons, hne45, h5']
  refine ⟨e1, e2, ?_⟩
  rw [e1, e2]
  exact fun hh => hne45 hh.symm

/-- C4 amended witness: the two-persist behavior at the concrete sample
hash on an empty config directory. -/
theorem persist_same_config_twice_probes_longer_witness :
    (saveConfig sampleHash []).1 = entryPath (sampleHash.take 4) ∧
    (saveConfig sampleHash (saveConfig sampleHash []).2).1 = entryPath (sampleHash.take 5) ∧
    (saveConfig sampleHash []).1 ≠ (saveConfig sampleHash (saveConfig sampleHash []).2).1 :=
  persist_same_config_twice_probes_longer sampleHash [] (by decide) rfl rfl

/-- C5: for a provider with no entry in the lookup tables, construction
fails with the `Unsupported provider` `ValueError` and the filesystem is
untouched, whether the failure comes from the credentials-environment
lookup site (a credentials file is given) or from the instance-type lookup
site inside config building (no credentials file); the two sites raise the
identical error for the same unknown provider. -/
theorem unknown_provider_fails_before_write (template : Config) (nm cred cn : String)
    (rg zn pn hnt wnt : Option String) (wc : Nat) (socks : Option String)
    (hashOf : Config → List Char) (fs : List String) :
    clusterInit template
        { provider := { name := .otherProvider nm, credentials_file := some cred
                        region := rg, zone := zn }
          project_name := pn, cluster_name := cn, worker_count := wc
          head_node_type := hnt, worker_node_type := wnt } socks hashOf fs
      = (.error (unsupportedProviderExc (.otherProvider nm)), fs) ∧
    clusterInit template
        { provider := { name := .otherProvider nm, credentials_file := none
                        region := rg, zone := zn }
          project_name := pn, cluster_name := cn, worker_count := wc
          head_node_type := hnt, worker_node_type := wnt } socks hashOf fs
      = (.error (unsupportedProviderExc (.otherProvider nm)), fs) := by
  exact ⟨rfl, rfl⟩

/-- Closed form of `__make_config` for a provider present in the lookup
tables (AWS). -/
theorem makeConfig_AWS (template : Config) (sp : ClusterSpec) (socks : Option String)
    (h : sp.provider.name = .AWS) :
    makeConfig template sp socks = .ok
      { cluster_name := sp.cluster_name
        min_workers := sp.worker_count
        max_workers := sp.worker_count
        initial_workers := sp.worker_count
        provider := { type := "aws"
                      region := if truthy sp.provider.region then sp.provider.region
                                else template.provider.region
                      zone := if truthy sp.provider.zone then sp.provider.zone
                              else template.provider.zone }
        auth := { ssh_user := "modin"
                  ssh_proxy_command :=
                    match socks with
                    | some prx =>
                      if prx.isEmpty then template.auth.ssh_proxy_command
                      else some ("nc -x " ++ shQuote prx ++ " %h %p")
                    | none => template.auth.ssh_proxy_command
                  ssh_private_key := template.auth.ssh_private_key }
        head_node := setAssoc template.head_node "InstanceType" sp.head_node_type
        worker_nodes := setAssoc template.worker_nodes "InstanceType" sp.worker_node_type } := by
  rcases socks with _ | prx <;>
    cases htr : truthy sp.provider.region <;>
    cases htz : truthy sp.provider.zone <;>
    simp [makeConfig, h, instanceKeyTable, ProviderName.str, htr, htz]
  all_goals cases hie : prx.isEmpty <;> simp [hie]

/-- C8: for every buildable cluster specification (provider AWS, the one
with table entries), the built config document has `min_workers`,
`max_workers` and `initial_workers` all equal to the spec's worker count
and `provider.type` equal to the provider identifier's name; and when the
spec has no region, `provider.region` is left at the base template's
value. -/
theorem config_worker_counts_and_provider (template : Config)
    (cf rg zn pn hnt wnt : Option String) (cn : String) (wc : Nat)
    (socks : Option String) :
    (∃ cfg, makeConfig template
        { provider := { name := .AWS, credentials_file := cf, region := rg, zone := zn }
          project_name := pn, cluster_name := cn, worker_count := wc
          head_node_type := hnt, worker_node_type := wnt } socks = .ok cfg ∧
      cfg.min_workers = wc ∧ cfg.max_workers = wc ∧ cfg.initial_workers = wc ∧
      cfg.provider.type = ProviderName.AWS.str) ∧
    (∃ cfg, makeConfig template
        { provider := { name := .AWS, credentials_file := cf, region := none, zone := zn }
          project_name := pn, cluster_name := cn, worker_count := wc
          head_node_type := hnt, worker_node_type := wnt } socks = .ok cfg ∧
      cfg.min_workers = wc ∧ cfg.max_workers = wc ∧ cfg.initial_workers = wc ∧
      cfg.provider.type = ProviderName.AWS.str ∧
      cfg.provider.region = template.provider.region) := by
  constructor
  · exact ⟨_, makeConfig_AWS template _ socks rfl, rfl, rfl, rfl, rfl⟩
  · refine ⟨_, makeConfig_AWS template _ socks rfl, rfl, rfl, rfl, rfl, ?_⟩
    simp [truthy]

end ModinCloud
